import Mathlib

/-!
Shallow embedding of the dot15d4 IEEE 802.15.4 frame codec.

The Rust sources embedded here are:
  * `dot15d4-frame/src/frame_control.rs` — the Frame Control word codec
    (bit-packed getters and setters over the little-endian u16 formed by the
    first two bytes of a frame buffer);
  * `dot15d4/src/frame/addressing.rs` — the `Address` type and the
    addressing-fields resolver `address_present_flags`, plus the field
    readers and `write_fields`;
  * `dot15d4/src/frame/ie/nested.rs` — the nested Information Element
    framer, its iterator, and the TSCH payload decoders.

Machine integers are modelled as `Nat` (bytes are `Nat < 256`; the Frame
Control word is the `Nat` value of the little-endian u16, always `< 2 ^ 16`
where it matters).  Buffers are `List Nat`.  Rust slice reads that would
panic out of bounds are modelled with `List.getD`/`List.take`; the claims
only ever evaluate them inside the bounds the source guarantees.
`Duration` (microseconds, an i64 in the source) is modelled as `Int`.
-/

namespace Dot15d4

/-- FrameType enumeration from `frame_control.rs` (`pub enum FrameType`). -/
inductive FrameType where
  | Beacon
  | Data
  | Ack
  | MacCommand
  | Multipurpose
  | FragmentOrFrak
  | Extended
  | Unknown
deriving DecidableEq, Repr

/-- Conversion `From<u8> for FrameType` from `frame_control.rs`. -/
def FrameType.ofU8 (value : Nat) : FrameType :=
  match value with
  | 0b000 => .Beacon
  | 0b001 => .Data
  | 0b010 => .Ack
  | 0b011 => .MacCommand
  | 0b101 => .Multipurpose
  | 0b110 => .FragmentOrFrak
  | 0b111 => .Extended
  | _ => .Unknown

/-- Rust discriminant of `FrameType` (`frame_type as u8`): explicit values
`Beacon = 0b000 .. Extended = 0b111`, and `Unknown` takes the next value, 8. -/
def FrameType.toU8 : FrameType → Nat
  | .Beacon => 0b000
  | .Data => 0b001
  | .Ack => 0b010
  | .MacCommand => 0b011
  | .Multipurpose => 0b101
  | .FragmentOrFrak => 0b110
  | .Extended => 0b111
  | .Unknown => 8

/-- FrameVersion enumeration from `frame_control.rs`.  In the `dot15d4`
crate the 2020 version variant is spelled `Ieee802154`; we keep that name. -/
inductive FrameVersion where
  | Ieee802154_2003
  | Ieee802154_2006
  | Ieee802154
  | Unknown
deriving DecidableEq, Repr

/-- Conversion `From<u8> for FrameVersion` from `frame_control.rs`. -/
def FrameVersion.ofU8 (value : Nat) : FrameVersion :=
  match value with
  | 0b00 => .Ieee802154_2003
  | 0b01 => .Ieee802154_2006
  | 0b10 => .Ieee802154
  | _ => .Unknown

/-- Rust discriminant of `FrameVersion` (`frame_version as u8`):
`2003 = 0b00`, `2006 = 0b01`, `2020 = 0b10`, `Unknown` takes 3. -/
def FrameVersion.toU8 : FrameVersion → Nat
  | .Ieee802154_2003 => 0b00
  | .Ieee802154_2006 => 0b01
  | .Ieee802154 => 0b10
  | .Unknown => 3

/-- AddressingMode enumeration from `addressing.rs`. -/
inductive AddressingMode where
  | Absent
  | Short
  | Extended
  | Unknown
deriving DecidableEq, Repr

/-- Conversion `From<u8> for AddressingMode` from `addressing.rs`. -/
def AddressingMode.ofU8 (value : Nat) : AddressingMode :=
  match value with
  | 0b00 => .Absent
  | 0b10 => .Short
  | 0b11 => .Extended
  | _ => .Unknown

/-- Rust discriminant of `AddressingMode` (`addressing_mode as u8`):
`Absent = 0b00`, `Short = 0b10`, `Extended = 0b11`, `Unknown` takes 4. -/
def AddressingMode.toU8 : AddressingMode → Nat
  | .Absent => 0b00
  | .Short => 0b10
  | .Extended => 0b11
  | .Unknown => 4

/-- Size of an address in octets (`AddressingMode::size` in `addressing.rs`). -/
def AddressingMode.size : AddressingMode → Nat
  | .Absent => 0
  | .Short => 2
  | .Extended => 8
  | .Unknown => 0

/-! ## Frame Control word codec (`frame_control.rs`)

Every getter and setter in the source first forms
`u16::from_le_bytes([b[0], b[1]])` from the first two buffer bytes and
works on that 16-bit word; the functions below take that word `w` directly.
Rust's `!mask` on a `u16` is modelled as `65535 ^^^ mask`. -/

/-- Getter `FrameControl::frame_type`: `FrameType::from((w & 0b111) as u8)`. -/
def frame_type (w : Nat) : FrameType :=
  FrameType.ofU8 (w &&& 0b111)

/-- Getter `FrameControl::security_enabled`: `((w >> 3) & 0b1) == 1`. -/
def security_enabled (w : Nat) : Bool :=
  ((w >>> 3) &&& 0b1) == 1

/-- Getter `FrameControl::frame_pending`: `((w >> 4) & 0b1) == 1`. -/
def frame_pending (w : Nat) : Bool :=
  ((w >>> 4) &&& 0b1) == 1

/-- Getter `FrameControl::ack_request`: `((w >> 5) & 0b1) == 1`. -/
def ack_request (w : Nat) : Bool :=
  ((w >>> 5) &&& 0b1) == 1

/-- Getter `FrameControl::pan_id_compression`: `((w >> 6) & 0b1) == 1`. -/
def pan_id_compression (w : Nat) : Bool :=
  ((w >>> 6) &&& 0b1) == 1

/-- Getter `FrameControl::sequence_number_suppression`: `((w >> 8) & 0b1) == 1`. -/
def sequence_number_suppression (w : Nat) : Bool :=
  ((w >>> 8) &&& 0b1) == 1

/-- Getter `FrameControl::information_elements_present`: `((w >> 9) & 0b1) == 1`. -/
def information_elements_present (w : Nat) : Bool :=
  ((w >>> 9) &&& 0b1) == 1

/-- Getter `FrameControl::dst_addressing_mode`: `AddressingMode::from(((w >> 10) & 0b11) as u8)`. -/
def dst_addressing_mode (w : Nat) : AddressingMode :=
  AddressingMode.ofU8 ((w >>> 10) &&& 0b11)

/-- Getter `FrameControl::src_addressing_mode`: `AddressingMode::from(((w >> 14) & 0b11) as u8)`. -/
def src_addressing_mode (w : Nat) : AddressingMode :=
  AddressingMode.ofU8 ((w >>> 14) &&& 0b11)

/-- Getter `FrameControl::frame_version`: `FrameVersion::from(((w >> 12) & 0b11) as u8)`. -/
def frame_version (w : Nat) : FrameVersion :=
  FrameVersion.ofU8 ((w >>> 12) &&& 0b11)

/-- Setter `FrameControl::set_frame_type`:
`raw = (raw & !0b111) | ((frame_type as u8) as u16 & 0b111)`. -/
def set_frame_type (w : Nat) (ft : FrameType) : Nat :=
  (w &&& (65535 ^^^ 0b111)) ||| (ft.toU8 &&& 0b111)

/-- Setter `FrameControl::set_security_enabled`: `raw |= (b as u16) << 3`. -/
def set_security_enabled (w : Nat) (b : Bool) : Nat :=
  w ||| (b.toNat <<< 3)

/-- Setter `FrameControl::set_frame_pending`: `raw |= (b as u16) << 4`. -/
def set_frame_pending (w : Nat) (b : Bool) : Nat :=
  w ||| (b.toNat <<< 4)

/-- Setter `FrameControl::set_ack_request`: `raw |= (b as u16) << 5`. -/
def set_ack_request (w : Nat) (b : Bool) : Nat :=
  w ||| (b.toNat <<< 5)

/-- Setter `FrameControl::set_pan_id_compression`: `raw |= (b as u16) << 6`. -/
def set_pan_id_compression (w : Nat) (b : Bool) : Nat :=
  w ||| (b.toNat <<< 6)

/-- Setter `FrameControl::set_sequence_number_suppression`: `raw |= (b as u16) << 8`. -/
def set_sequence_number_suppression (w : Nat) (b : Bool) : Nat :=
  w ||| (b.toNat <<< 8)

/-- Setter `FrameControl::set_information_elements_present`: `raw |= (b as u16) << 9`. -/
def set_information_elements_present (w : Nat) (b : Bool) : Nat :=
  w ||| (b.toNat <<< 9)

/-- Setter `FrameControl::set_dst_addressing_mode`:
`raw = (raw & !(0b11 << 10)) | (((m as u8) as u16 & 0b11) << 10)`. -/
def set_dst_addressing_mode (w : Nat) (m : AddressingMode) : Nat :=
  (w &&& (65535 ^^^ (0b11 <<< 10))) ||| ((m.toU8 &&& 0b11) <<< 10)

/-- Setter `FrameControl::set_src_addressing_mode`:
`raw = (raw & !(0b11 << 14)) | (((m as u8) as u16 & 0b11) << 14)`. -/
def set_src_addressing_mode (w : Nat) (m : AddressingMode) : Nat :=
  (w &&& (65535 ^^^ (0b11 <<< 14))) ||| ((m.toU8 &&& 0b11) <<< 14)

/-- Setter `FrameControl::set_frame_version`:
`raw = (raw & !(0b11 << 12)) | (((fv as u8) as u16 & 0b11) << 12)`. -/
def set_frame_version (w : Nat) (fv : FrameVersion) : Nat :=
  (w &&& (65535 ^^^ (0b11 <<< 12))) ||| ((fv.toU8 &&& 0b11) <<< 12)

/-- Constructor `FrameControl::new` on a byte buffer: returns the view
(the buffer itself) when `check_len` holds (`buffer.len() >= 2`),
an error (`none`) otherwise. -/
def fcNew (buffer : List Nat) : Option (List Nat) :=
  if 2 ≤ buffer.length then some buffer else none

/-- Constructor `FrameControl::new_unchecked`: wraps the buffer with no check. -/
def fcNewUnchecked (buffer : List Nat) : List Nat :=
  buffer

/-! ## Addressing fields (`addressing.rs`) -/

/-- Address value type from `addressing.rs`: `{Absent, Short([u8; 2]), Extended([u8; 8])}`.
The fixed-size byte arrays are modelled as `List Nat` of length 2 / 8. -/
inductive Address where
  | Absent
  | Short (b : List Nat)
  | Extended (b : List Nat)
deriving DecidableEq, Repr

/-- Constant `Address::BROADCAST = Short([0xff; 2])`. -/
def Address.BROADCAST : Address := .Short [0xff, 0xff]

/-- Method `Address::is_broadcast`: structural equality with `BROADCAST`. -/
def Address.is_broadcast (a : Address) : Bool :=
  decide (a = Address.BROADCAST)

/-- Method `Address::is_unicast`: the negation of `is_broadcast`. -/
def Address.is_unicast (a : Address) : Bool :=
  ! a.is_broadcast

/-- Method `Address::as_bytes`: the stored payload bytes (empty for `Absent`). -/
def Address.as_bytes : Address → List Nat
  | .Absent => []
  | .Short b => b
  | .Extended b => b

/-- Method `Address::len`: 0 / 2 / 8 bytes. -/
def Address.len : Address → Nat
  | .Absent => 0
  | .Short _ => 2
  | .Extended _ => 8

/-- Helper packaging an addressing mode together with payload bytes into an
`Address` the way the readers construct them (`short_from_bytes` /
`extended_from_bytes`); `Absent` carries no bytes. -/
def mkAddr : AddressingMode → List Nat → Address
  | .Absent, _ => .Absent
  | .Short, b => .Short b
  | .Extended, b => .Extended b
  | .Unknown, _ => .Absent

/-- Helper `u16::from_le_bytes([b0, b1])` for bytes `b0 b1 < 256`. -/
def fromLeBytes2 (b0 b1 : Nat) : Nat :=
  b0 + 256 * b1

/-- Helper `(id : u16).to_le_bytes()` for `id < 65536`. -/
def toLeBytes2 (id : Nat) : List Nat :=
  [id % 256, id / 256 % 256]

/-- Helper for the slice reads `&buffer[off..off + n]` (`clone_from_slice`).
The source panics when the buffer is shorter than `off + n`; claims only use
this inside those bounds. -/
def readBytes (buf : List Nat) (off n : Nat) : List Nat :=
  (buf.drop off).take n

/-- Structure `AddressingFieldsRepr` from `addressing.rs`: the owned,
fully-resolved snapshot handed to `write_fields`. -/
structure AddressingFieldsRepr where
  mk ::
  dst_pan_id : Option Nat
  src_pan_id : Option Nat
  dst_address : Option Address
  src_address : Option Address
deriving DecidableEq, Repr

/-- Resolver core of `AddressingFields::address_present_flags`: the match on
`(frame_version, dst mode, src mode, pan_id_compression)`.  The Lean `match`
arms are in the source's order, so the wildcard `d` / `s` patterns cover
exactly what the Rust `dst` / `src` bindings (with their `!matches!(_, Absent)`
guards) cover — including `AddressingMode.Unknown`. -/
def resolve_flags (version : FrameVersion) (dst_addr_mode src_addr_mode : AddressingMode)
    (pan_id_compression : Bool) : Option (Bool × AddressingMode × Bool × AddressingMode) :=
  match version with
  | .Ieee802154_2003 | .Ieee802154_2006 =>
    match dst_addr_mode, src_addr_mode with
    | .Absent, s => some (false, .Absent, true, s)
    | d, .Absent => some (true, d, false, .Absent)
    | d, s => if pan_id_compression then some (true, d, false, s) else some (true, d, true, s)
  | .Ieee802154 =>
    match dst_addr_mode, src_addr_mode, pan_id_compression with
    | .Absent, .Absent, false => some (false, .Absent, false, .Absent)
    | .Absent, .Absent, true => some (true, .Absent, false, .Absent)
    | d, .Absent, false => some (true, d, false, .Absent)
    | d, .Absent, true => some (false, d, false, .Absent)
    | .Absent, s, false => some (false, .Absent, true, s)
    | .Absent, s, true => some (false, .Absent, true, s)
    | .Extended, .Extended, false => some (true, .Extended, false, .Extended)
    | .Extended, .Extended, true => some (false, .Extended, false, .Extended)
    | .Short, .Short, false => some (true, .Short, true, .Short)
    | .Short, .Extended, false => some (true, .Short, true, .Extended)
    | .Extended, .Short, false => some (true, .Extended, true, .Short)
    | .Short, .Extended, true => some (true, .Short, false, .Extended)
    | .Extended, .Short, true => some (true, .Extended, false, .Short)
    | .Short, .Short, true => some (true, .Short, false, .Short)
    | _, _, _ => none
  | .Unknown => none

/-- Method `AddressingFields::address_present_flags`: reads the three Frame
Control fields and resolves via the version-gated rule table. -/
def address_present_flags (w : Nat) : Option (Bool × AddressingMode × Bool × AddressingMode) :=
  resolve_flags (frame_version w) (dst_addressing_mode w) (src_addressing_mode w)
    (pan_id_compression w)

/-- Method `AddressingFields::dst_address`: resolves the layout, reads the
destination address bytes at their offset and reverses them. -/
def dst_address (buf : List Nat) (w : Nat) : Option Address :=
  match address_present_flags w with
  | some (dst_pan_id, dst_addr, _, _) =>
    let offset := if dst_pan_id then 2 else 0
    match dst_addr with
    | .Absent => some .Absent
    | .Short => some (.Short (readBytes buf offset 2).reverse)
    | .Extended => some (.Extended (readBytes buf offset 8).reverse)
    | .Unknown => none
  | none => none

/-- Method `AddressingFields::src_address`: resolves the layout, reads the
source address bytes at their offset and reverses them. -/
def src_address (buf : List Nat) (w : Nat) : Option Address :=
  match address_present_flags w with
  | some (dst_pan_id, dst_addr, src_pan_id, src_addr) =>
    let offset := (if dst_pan_id then 2 else 0) + dst_addr.size + (if src_pan_id then 2 else 0)
    match src_addr with
    | .Absent => some .Absent
    | .Short => some (.Short (readBytes buf offset 2).reverse)
    | .Extended => some (.Extended (readBytes buf offset 8).reverse)
    | .Unknown => none
  | none => none

/-- Method `AddressingFields::dst_pan_id`: the little-endian u16 at offset 0
when the resolver says the destination PAN ID is present. -/
def dst_pan_id (buf : List Nat) (w : Nat) : Option Nat :=
  match address_present_flags w with
  | some (true, _, _, _) => some (fromLeBytes2 (buf.getD 0 0) (buf.getD 1 0))
  | _ => none

/-- Method `AddressingFields::src_pan_id`: the little-endian u16 after the
destination PAN ID and destination address, when present. -/
def src_pan_id (buf : List Nat) (w : Nat) : Option Nat :=
  match address_present_flags w with
  | some (dst_pan_id, dst_addr, true, _) =>
    let offset := (if dst_pan_id then 2 else 0) + dst_addr.size
    some (fromLeBytes2 ((buf.drop offset).getD 0 0) ((buf.drop offset).getD 1 0))
  | _ => none

/-- Method `AddressingFields::write_fields`: serializes the present fields of
an `AddressingFieldsRepr` in order — dst PAN ID (LE), dst address bytes
(`addr.as_bytes()`, no reversal in the source), src PAN ID (LE), src address
bytes — advancing an offset cursor.  Modelled as the emitted byte list
(the source writes exactly these bytes at offsets 0.. of its buffer). -/
def write_fields_bytes (fields : AddressingFieldsRepr) : List Nat :=
  (match fields.dst_pan_id with
   | some id => toLeBytes2 id
   | none => []) ++
  (match fields.dst_address with
   | some addr => addr.as_bytes
   | none => []) ++
  (match fields.src_pan_id with
   | some id => toLeBytes2 id
   | none => []) ++
  (match fields.src_address with
   | some addr => addr.as_bytes
   | none => [])

/-! ## Nested Information Elements (`ie/nested.rs`) -/

/-- Header word of a Nested Information Element: `u16::from_le_bytes([b[0], b[1]])`
over the element's first two bytes. -/
def nestedHeader (data : List Nat) : Nat :=
  fromLeBytes2 (data.getD 0 0) (data.getD 1 0)

/-- Method `NestedInformationElement::is_long`: bit 15 of the header. -/
def nested_is_long (data : List Nat) : Bool :=
  ((nestedHeader data >>> 15) &&& 0b1) == 0b1

/-- Method `NestedInformationElement::is_short`: negation of `is_long`. -/
def nested_is_short (data : List Nat) : Bool :=
  ! nested_is_long data

/-- Method `NestedInformationElement::length`: bits 0–9 (long) or 0–6 (short)
of the header. -/
def nested_length (data : List Nat) : Nat :=
  if nested_is_long data then
    nestedHeader data &&& 0b1111111111
  else
    nestedHeader data &&& 0b1111111

/-- Method `NestedInformationElement::content`: `&data[2..][..length()]`. -/
def nested_content (data : List Nat) : List Nat :=
  (data.drop 2).take (nested_length data)

/-- Iterator `NestedInformationElementsIterator::next`, run to exhaustion from
offset `offset`.  Each step takes the element spanning
`data[offset..][..length() + 2]`, advances by that size, and terminates once
the cursor reaches the end of the stream (`offset >= data.len()` sets the
`terminated` flag, which the guard `offset < data.length` mirrors). -/
def nestedCollect (data : List Nat) (offset : Nat) : List (List Nat) :=
  if _h : offset < data.length then
    let nested_len := nested_length (data.drop offset) + 2
    (data.drop offset).take nested_len :: nestedCollect data (offset + nested_len)
  else []
termination_by data.length - offset
decreasing_by simp_wf; omega

/-! ### TSCH Timeslot IE -/

/-- TSCH time slot timings record from `ie/nested.rs` (`TschTimeslotTimings`),
fields in the source's declaration order; `Duration` is an `Int` of
microseconds. -/
structure TschTimeslotTimings where
  mk ::
  id : Nat
  cca_offset : Int
  cca : Int
  rx_tx : Int
  tx_offset : Int
  max_tx : Int
  rx_ack_delay : Int
  ack_wait : Int
  rx_offset : Int
  rx_wait : Int
  tx_ack_delay : Int
  max_ack : Int
  time_slot_length : Int
deriving DecidableEq, Repr

/-- Constant `TschTimeslotTimings::DEFAULT_GUARD_TIME` (2200 µs). -/
def DEFAULT_GUARD_TIME : Int := 2200

/-- Constructor `TschTimeslotTimings::new(id, guard_time)`: the IEEE default
table parameterized by the guard time. -/
def TschTimeslotTimings.new (id : Nat) (guard_time : Int) : TschTimeslotTimings where
  id := id
  cca_offset := 1800
  cca := 128
  tx_offset := 2120
  rx_offset := 2120 - guard_time / 2
  rx_ack_delay := 800
  tx_ack_delay := 1000
  rx_wait := guard_time
  ack_wait := 400
  rx_tx := 192
  max_ack := 2400
  max_tx := 4256
  time_slot_length := 10000

/-- Method `TschTimeslot::id`: the first content byte. -/
def tschTimeslotId (data : List Nat) : Nat :=
  data.getD 0 0

/-- Helper for `u16::from_le_bytes([b[0], b[1]])` over the slice
`&data[off..][..len]` as the source's timing reads do (only the first two
bytes of the slice are decoded, even when `len = 3`). -/
def timingRead (data : List Nat) (off len : Nat) : Int :=
  let b := (data.drop off).take len
  (fromLeBytes2 (b.getD 0 0) (b.getD 1 0) : Int)

/-- Method `TschTimeslot::timeslot_timings`: the ID-0 default table, or the
fixed-order wire table for a non-zero ID.  For `max_tx` and
`time_slot_length` the slice width is 2 when the record is exactly 25 bytes
long, 3 otherwise, and `time_slot_length` starts at offset 23 or 24
accordingly; both values are decoded with `u16::from_le_bytes` on the first
two slice bytes (the source's `TODO` comments mark the 3-byte decode as
unimplemented). -/
def timeslot_timings (data : List Nat) : TschTimeslotTimings :=
  if tschTimeslotId data == 0 then
    TschTimeslotTimings.new 0 DEFAULT_GUARD_TIME
  else
    { id := tschTimeslotId data
      cca_offset := timingRead data 1 2
      cca := timingRead data 3 2
      tx_offset := timingRead data 5 2
      rx_offset := timingRead data 7 2
      rx_ack_delay := timingRead data 9 2
      tx_ack_delay := timingRead data 11 2
      rx_wait := timingRead data 13 2
      ack_wait := timingRead data 15 2
      rx_tx := timingRead data 17 2
      max_ack := timingRead data 19 2
      max_tx := timingRead data 21 (if data.length = 25 then 2 else 3)
      time_slot_length :=
        timingRead data (if data.length = 25 then 23 else 24)
          (if data.length = 25 then 2 else 3) }

/-! ### Slotframe and Link descriptor iterators -/

/-- State of `LinkDescriptorIterator` (`data`, `offset`, `terminated`). -/
structure LDIter where
  mk ::
  data : List Nat
  offset : Nat
  terminated : Bool
deriving DecidableEq, Repr

/-- Constructor `LinkDescriptorIterator::new`: offset 0, not terminated. -/
def ldInit (data : List Nat) : LDIter where
  data := data
  offset := 0
  terminated := false

/-- One call of `LinkDescriptorIterator::next`: when not terminated it always
produces the descriptor view `&data[offset..]`, advances by
`LinkDescriptor::len()` (5) and terminates once `offset >= data.len()`. -/
def ldNext (s : LDIter) : Option (List Nat) × LDIter :=
  if s.terminated then
    (none, s)
  else
    let descriptor := s.data.drop s.offset
    let offset := s.offset + 5
    (some descriptor, LDIter.mk s.data offset (decide (s.data.length ≤ offset)))

/-- Field read `SlotframeDescriptor::links`: byte 3 of the descriptor. -/
def sfLinks (data : List Nat) : Nat :=
  data.getD 3 0

/-- Method `SlotframeDescriptor::len`: `4 + links * 5`. -/
def sfDescriptorLen (data : List Nat) : Nat :=
  4 + sfLinks data * 5

/-- Method `SlotframeDescriptor::link_descriptors`: a `LinkDescriptorIterator`
over `&data[4..][..links * 5]`. -/
def link_descriptors (data : List Nat) : LDIter :=
  ldInit ((data.drop 4).take (sfLinks data * 5))

/-- State of `SlotframeDescriptorIterator`. -/
structure SFIter where
  mk ::
  data : List Nat
  offset : Nat
  terminated : Bool
  slotframes : Nat
  slotframe_count : Nat
deriving DecidableEq, Repr

/-- Constructor `SlotframeDescriptorIterator::new`: starts terminated exactly
when the declared slotframe count is 0. -/
def sfIterNew (slotframes : Nat) (data : List Nat) : SFIter where
  data := data
  offset := 0
  terminated := decide (slotframes = 0)
  slotframes := slotframes
  slotframe_count := 0

/-- One call of `SlotframeDescriptorIterator::next`: emits the descriptor at
the cursor, advances by its self-declared length and terminates at
end-of-buffer or once the declared count is reached. -/
def sfNext (s : SFIter) : Option (List Nat) × SFIter :=
  if s.terminated then
    (none, s)
  else
    let descriptor := s.data.drop s.offset
    let slotframe_count := s.slotframe_count + 1
    let offset := s.offset + sfDescriptorLen descriptor
    let terminated := decide (s.data.length ≤ offset) || decide (s.slotframes ≤ slotframe_count)
    (some descriptor, SFIter.mk s.data offset terminated s.slotframes slotframe_count)

/-- Expected 2020 resolution table, written for comparison with the code.
Modelled from the spec's words: the 13-case table of IEEE 802.15.4-2020
Table 9-14 spelled out as the 18 concrete (dst mode, src mode, compression)
triples over {Absent, Short, Extended} — amended with the four rows the
source's wildcard `(dst, Absent, _)` / `(Absent, src, _)` arms add for
`Unknown` opposite `Absent` — and `none` (unrepresentable) for every other
combination. -/
def table2020_amended (dst src : AddressingMode) (compression : Bool) :
    Option (Bool × AddressingMode × Bool × AddressingMode) :=
  match dst, src, compression with
  | .Absent, .Absent, false => some (false, .Absent, false, .Absent)
  | .Absent, .Absent, true => some (true, .Absent, false, .Absent)
  | .Short, .Absent, false => some (true, .Short, false, .Absent)
  | .Extended, .Absent, false => some (true, .Extended, false, .Absent)
  | .Short, .Absent, true => some (false, .Short, false, .Absent)
  | .Extended, .Absent, true => some (false, .Extended, false, .Absent)
  | .Absent, .Short, false => some (false, .Absent, true, .Short)
  | .Absent, .Extended, false => some (false, .Absent, true, .Extended)
  | .Absent, .Short, true => some (false, .Absent, true, .Short)
  | .Absent, .Extended, true => some (false, .Absent, true, .Extended)
  | .Extended, .Extended, false => some (true, .Extended, false, .Extended)
  | .Extended, .Extended, true => some (false, .Extended, false, .Extended)
  | .Short, .Short, false => some (true, .Short, true, .Short)
  | .Short, .Extended, false => some (true, .Short, true, .Extended)
  | .Extended, .Short, false => some (true, .Extended, true, .Short)
  | .Short, .Extended, true => some (true, .Short, false, .Extended)
  | .Extended, .Short, true => some (true, .Extended, false, .Short)
  | .Short, .Short, true => some (true, .Short, false, .Short)
  | .Unknown, .Absent, false => some (true, .Unknown, false, .Absent)
  | .Unknown, .Absent, true => some (false, .Unknown, false, .Absent)
  | .Absent, .Unknown, false => some (false, .Absent, true, .Unknown)
  | .Absent, .Unknown, true => some (false, .Absent, true, .Unknown)
  | _, _, _ => none

/-- Failing input for C5: a 27-byte timeslot record (ID 1) whose `max_tx`
field bytes at offsets 21–23 are `[0x00, 0x10, 0x01]` — full 3-byte
little-endian value 69632 — and whose `time_slot_length` bytes at offsets
24–26 are `[0x10, 0x27, 0x00]` (3-byte value 10000). -/
def longTimeslotRecord : List Nat :=
  [1,
   0, 0, 0, 0, 0, 0, 0, 0, 0, 0, 0, 0, 0, 0, 0, 0, 0, 0, 0, 0,
   0x00, 0x10, 0x01,
   0x10, 0x27, 0x00]


/-! ## Generic bit-field lemmas

The Frame Control accessors are instances of two shapes: a masked
read-modify-write `(w &&& !(mask <<< k)) ||| ((v &&& mask) <<< k)` for the
multi-bit fields, and a plain `w ||| (bit <<< k)` for the boolean fields.
The lemmas below are proved once by `testBit` extensionality. -/

theorem testBit_maskShift (s k i : Nat) :
    ((2 ^ s - 1) <<< k).testBit i = (decide (k ≤ i) && decide (i - k < s)) := by
  rw [Nat.testBit_shiftLeft, Nat.testBit_two_pow_sub_one]

theorem testBit_notMask16 (s k i : Nat) (h : k + s ≤ 16) :
    (65535 ^^^ ((2 ^ s - 1) <<< k)).testBit i =
      (decide (i < 16) && !(decide (k ≤ i) && decide (i - k < s))) := by
  have h65535 : (65535 : Nat) = 2 ^ 16 - 1 := by norm_num
  rw [Nat.testBit_xor, h65535, Nat.testBit_two_pow_sub_one, testBit_maskShift]
  by_cases h1 : i < 16 <;> by_cases h2 : k ≤ i <;> by_cases h3 : i - k < s <;>
      simp [h1, h2, h3] <;> omega

theorem testBit_one_decide (i : Nat) : Nat.testBit 1 i = decide (i = 0) := by
  have h : (1 : Nat) = 2 ^ 1 - 1 := by norm_num
  rw [h, Nat.testBit_two_pow_sub_one]
  simp [Nat.lt_one_iff]

/-- Reading a masked read-modify-write field back gives the masked value. -/
theorem fcGet_set_same (k s : Nat) (h : k + s ≤ 16) (w u : Nat) :
    (((w &&& (65535 ^^^ ((2 ^ s - 1) <<< k))) ||| ((u &&& (2 ^ s - 1)) <<< k)) >>> k) &&&
      (2 ^ s - 1) = u &&& (2 ^ s - 1) := by
  apply Nat.eq_of_testBit_eq
  intro i
  have hmask := fun j => testBit_notMask16 s k j h
  simp only [Nat.testBit_and, Nat.testBit_shiftRight, Nat.testBit_or, hmask,
    Nat.testBit_shiftLeft, Nat.testBit_two_pow_sub_one, Nat.add_sub_cancel_left,
    ge_iff_le]
  by_cases hs : i < s <;> simp [hs, Nat.le_add_right]

/-- A masked read-modify-write leaves every disjoint bit range unchanged. -/
theorem fcGet_set_other (k s j t : Nat) (hks : k + s ≤ 16) (hjt : j + t ≤ 16)
    (hdisj : j + t ≤ k ∨ k + s ≤ j) (w u : Nat) :
    (((w &&& (65535 ^^^ ((2 ^ s - 1) <<< k))) ||| ((u &&& (2 ^ s - 1)) <<< k)) >>> j) &&&
      (2 ^ t - 1) = (w >>> j) &&& (2 ^ t - 1) := by
  apply Nat.eq_of_testBit_eq
  intro i
  have hmask := fun j => testBit_notMask16 s k j hks
  simp only [Nat.testBit_and, Nat.testBit_shiftRight, Nat.testBit_or, hmask,
    Nat.testBit_shiftLeft, Nat.testBit_two_pow_sub_one, ge_iff_le]
  by_cases ht : i < t
  · have h16 : j + i < 16 := by omega
    by_cases h2 : k ≤ j + i
    · have h3 : ¬(j + i - k < s) := by omega
      simp [ht, h16, h2, h3]
    · simp [ht, h16, h2]
  · simp [ht]

/-- ORing a bit in makes that bit read back 1. -/
theorem fcOr_get_same (k : Nat) (w : Nat) :
    ((w ||| (1 <<< k)) >>> k) &&& 1 = 1 := by
  apply Nat.eq_of_testBit_eq
  intro i
  simp only [Nat.testBit_and, Nat.testBit_shiftRight, Nat.testBit_or, Nat.testBit_shiftLeft,
    testBit_one_decide, Nat.add_sub_cancel_left, ge_iff_le]
  by_cases hi : i = 0 <;> simp [hi, Nat.le_add_right]

/-- ORing a single bit in leaves every other bit range unchanged. -/
theorem fcOr_get_other (k j t : Nat) (hdisj : k < j ∨ j + t ≤ k) (w : Nat) :
    ((w ||| (1 <<< k)) >>> j) &&& (2 ^ t - 1) = (w >>> j) &&& (2 ^ t - 1) := by
  apply Nat.eq_of_testBit_eq
  intro i
  simp only [Nat.testBit_and, Nat.testBit_shiftRight, Nat.testBit_or, Nat.testBit_shiftLeft,
    testBit_one_decide, Nat.testBit_two_pow_sub_one, ge_iff_le]
  by_cases ht : i < t
  · by_cases h2 : k ≤ j + i
    · have h3 : ¬(j + i - k = 0) := by omega
      simp [ht, h2, h3]
    · simp [ht, h2]
  · simp [ht]

/-! ### Per-setter getter effects -/

theorem set_frame_type_get (w : Nat) (ft : FrameType) (h : ft ≠ FrameType.Unknown) :
    frame_type (set_frame_type w ft) = ft := by
  have hback : frame_type (set_frame_type w ft) = FrameType.ofU8 (ft.toU8 &&& 7) :=
    congrArg FrameType.ofU8 (fcGet_set_same 0 3 (by omega) w ft.toU8)
  rw [hback]
  cases ft <;> first | rfl | exact absurd rfl h

theorem set_frame_type_preserves (w : Nat) (ft : FrameType) :
    security_enabled (set_frame_type w ft) = security_enabled w ∧
    frame_pending (set_frame_type w ft) = frame_pending w ∧
    ack_request (set_frame_type w ft) = ack_request w ∧
    pan_id_compression (set_frame_type w ft) = pan_id_compression w ∧
    sequence_number_suppression (set_frame_type w ft) = sequence_number_suppression w ∧
    information_elements_present (set_frame_type w ft) = information_elements_present w ∧
    dst_addressing_mode (set_frame_type w ft) = dst_addressing_mode w ∧
    frame_version (set_frame_type w ft) = frame_version w ∧
    src_addressing_mode (set_frame_type w ft) = src_addressing_mode w := by
  refine ⟨?_, ?_, ?_, ?_, ?_, ?_, ?_, ?_, ?_⟩
  · exact congrArg (fun x => x == 1)
      (fcGet_set_other 0 3 3 1 (by omega) (by omega) (by omega) w ft.toU8)
  · exact congrArg (fun x => x == 1)
      (fcGet_set_other 0 3 4 1 (by omega) (by omega) (by omega) w ft.toU8)
  · exact congrArg (fun x => x == 1)
      (fcGet_set_other 0 3 5 1 (by omega) (by omega) (by omega) w ft.toU8)
  · exact congrArg (fun x => x == 1)
      (fcGet_set_other 0 3 6 1 (by omega) (by omega) (by omega) w ft.toU8)
  · exact congrArg (fun x => x == 1)
      (fcGet_set_other 0 3 8 1 (by omega) (by omega) (by omega) w ft.toU8)
  · exact congrArg (fun x => x == 1)
      (fcGet_set_other 0 3 9 1 (by omega) (by omega) (by omega) w ft.toU8)
  · exact congrArg AddressingMode.ofU8
      (fcGet_set_other 0 3 10 2 (by omega) (by omega) (by omega) w ft.toU8)
  · exact congrArg FrameVersion.ofU8
      (fcGet_set_other 0 3 12 2 (by omega) (by omega) (by omega) w ft.toU8)
  · exact congrArg AddressingMode.ofU8
      (fcGet_set_other 0 3 14 2 (by omega) (by omega) (by omega) w ft.toU8)

theorem set_dst_addressing_mode_get (w : Nat) (m : AddressingMode) (h : m ≠ AddressingMode.Unknown) :
    dst_addressing_mode (set_dst_addressing_mode w m) = m := by
  have hback : dst_addressing_mode (set_dst_addressing_mode w m) = AddressingMode.ofU8 (m.toU8 &&& 3) :=
    congrArg AddressingMode.ofU8 (fcGet_set_same 10 2 (by omega) w m.toU8)
  rw [hback]
  cases m <;> first | rfl | exact absurd rfl h

theorem set_dst_addressing_mode_preserves (w : Nat) (m : AddressingMode) :
    frame_type (set_dst_addressing_mode w m) = frame_type w ∧
    security_enabled (set_dst_addressing_mode w m) = security_enabled w ∧
    frame_pending (set_dst_addressing_mode w m) = frame_pending w ∧
    ack_request (set_dst_addressing_mode w m) = ack_request w ∧
    pan_id_compression (set_dst_addressing_mode w m) = pan_id_compression w ∧
    sequence_number_suppression (set_dst_addressing_mode w m) = sequence_number_suppression w ∧
    information_elements_present (set_dst_addressing_mode w m) = information_elements_present w ∧
    frame_version (set_dst_addressing_mode w m) = frame_version w ∧
    src_addressing_mode (set_dst_addressing_mode w m) = src_addressing_mode w := by
  refine ⟨?_, ?_, ?_, ?_, ?_, ?_, ?_, ?_, ?_⟩
  · exact congrArg FrameType.ofU8
      (fcGet_set_other 10 2 0 3 (by omega) (by omega) (by omega) w m.toU8)
  · exact congrArg (fun x => x == 1)
      (fcGet_set_other 10 2 3 1 (by omega) (by omega) (by omega) w m.toU8)
  · exact congrArg (fun x => x == 1)
      (fcGet_set_other 10 2 4 1 (by omega) (by omega) (by omega) w m.toU8)
  · exact congrArg (fun x => x == 1)
      (fcGet_set_other 10 2 5 1 (by omega) (by omega) (by omega) w m.toU8)
  · exact congrArg (fun x => x == 1)
      (fcGet_set_other 10 2 6 1 (by omega) (by omega) (by omega) w m.toU8)
  · exact congrArg (fun x => x == 1)
      (fcGet_set_other 10 2 8 1 (by omega) (by omega) (by omega) w m.toU8)
  · exact congrArg (fun x => x == 1)
      (fcGet_set_other 10 2 9 1 (by omega) (by omega) (by omega) w m.toU8)
  · exact congrArg FrameVersion.ofU8
      (fcGet_set_other 10 2 12 2 (by omega) (by omega) (by omega) w m.toU8)
  · exact congrArg AddressingMode.ofU8
      (fcGet_set_other 10 2 14 2 (by omega) (by omega) (by omega) w m.toU8)

theorem set_frame_version_get (w : Nat) (fv : FrameVersion) :
    frame_version (set_frame_version w fv) = fv := by
  have hback : frame_version (set_frame_version w fv) = FrameVersion.ofU8 (fv.toU8 &&& 3) :=
    congrArg FrameVersion.ofU8 (fcGet_set_same 12 2 (by omega) w fv.toU8)
  rw [hback]
  cases fv <;> rfl

theorem set_frame_version_preserves (w : Nat) (fv : FrameVersion) :
    frame_type (set_frame_version w fv) = frame_type w ∧
    security_enabled (set_frame_version w fv) = security_enabled w ∧
    frame_pending (set_frame_version w fv) = frame_pending w ∧
    ack_request (set_frame_version w fv) = ack_request w ∧
    pan_id_compression (set_frame_version w fv) = pan_id_compression w ∧
    sequence_number_suppression (set_frame_version w fv) = sequence_number_suppression w ∧
    information_elements_present (set_frame_version w fv) = information_elements_present w ∧
    dst_addressing_mode (set_frame_version w fv) = dst_addressing_mode w ∧
    src_addressing_mode (set_frame_version w fv) = src_addressing_mode w := by
  refine ⟨?_, ?_, ?_, ?_, ?_, ?_, ?_, ?_, ?_⟩
  · exact congrArg FrameType.ofU8
      (fcGet_set_other 12 2 0 3 (by omega) (by omega) (by omega) w fv.toU8)
  · exact congrArg (fun x => x == 1)
      (fcGet_set_other 12 2 3 1 (by omega) (by omega) (by omega) w fv.toU8)
  · exact congrArg (fun x => x == 1)
      (fcGet_set_other 12 2 4 1 (by omega) (by omega) (by omega) w fv.toU8)
  · exact congrArg (fun x => x == 1)
      (fcGet_set_other 12 2 5 1 (by omega) (by omega) (by omega) w fv.toU8)
  · exact congrArg (fun x => x == 1)
      (fcGet_set_other 12 2 6 1 (by omega) (by omega) (by omega) w fv.toU8)
  · exact congrArg (fun x => x == 1)
      (fcGet_set_other 12 2 8 1 (by omega) (by omega) (by omega) w fv.toU8)
  · exact congrArg (fun x => x == 1)
      (fcGet_set_other 12 2 9 1 (by omega) (by omega) (by omega) w fv.toU8)
  · exact congrArg AddressingMode.ofU8
      (fcGet_set_other 12 2 10 2 (by omega) (by omega) (by omega) w fv.toU8)
  · exact congrArg AddressingMode.ofU8
      (fcGet_set_other 12 2 14 2 (by omega) (by omega) (by omega) w fv.toU8)

theorem set_src_addressing_mode_get (w : Nat) (m : AddressingMode) (h : m ≠ AddressingMode.Unknown) :
    src_addressing_mode (set_src_addressing_mode w m) = m := by
  have hback : src_addressing_mode (set_src_addressing_mode w m) = AddressingMode.ofU8 (m.toU8 &&& 3) :=
    congrArg AddressingMode.ofU8 (fcGet_set_same 14 2 (by omega) w m.toU8)
  rw [hback]
  cases m <;> first | rfl | exact absurd rfl h

theorem set_src_addressing_mode_preserves (w : Nat) (m : AddressingMode) :
    frame_type (set_src_addressing_mode w m) = frame_type w ∧
    security_enabled (set_src_addressing_mode w m) = security_enabled w ∧
    frame_pending (set_src_addressing_mode w m) = frame_pending w ∧
    ack_request (set_src_addressing_mode w m) = ack_request w ∧
    pan_id_compression (set_src_addressing_mode w m) = pan_id_compression w ∧
    sequence_number_suppression (set_src_addressing_mode w m) = sequence_number_suppression w ∧
    information_elements_present (set_src_addressing_mode w m) = information_elements_present w ∧
    dst_addressing_mode (set_src_addressing_mode w m) = dst_addressing_mode w ∧
    frame_version (set_src_addressing_mode w m) = frame_version w := by
  refine ⟨?_, ?_, ?_, ?_, ?_, ?_, ?_, ?_, ?_⟩
  · exact congrArg FrameType.ofU8
      (fcGet_set_other 14 2 0 3 (by omega) (by omega) (by omega) w m.toU8)
  · exact congrArg (fun x => x == 1)
      (fcGet_set_other 14 2 3 1 (by omega) (by omega) (by omega) w m.toU8)
  · exact congrArg (fun x => x == 1)
      (fcGet_set_other 14 2 4 1 (by omega) (by omega) (by omega) w m.toU8)
  · exact congrArg (fun x => x == 1)
      (fcGet_set_other 14 2 5 1 (by omega) (by omega) (by omega) w m.toU8)
  · exact congrArg (fun x => x == 1)
      (fcGet_set_other 14 2 6 1 (by omega) (by omega) (by omega) w m.toU8)
  · exact congrArg (fun x => x == 1)
      (fcGet_set_other 14 2 8 1 (by omega) (by omega) (by omega) w m.toU8)
  · exact congrArg (fun x => x == 1)
      (fcGet_set_other 14 2 9 1 (by omega) (by omega) (by omega) w m.toU8)
  · exact congrArg AddressingMode.ofU8
      (fcGet_set_other 14 2 10 2 (by omega) (by omega) (by omega) w m.toU8)
  · exact congrArg FrameVersion.ofU8
      (fcGet_set_other 14 2 12 2 (by omega) (by omega) (by omega) w m.toU8)

theorem set_security_enabled_false (w : Nat) : set_security_enabled w false = w := by
  simp [set_security_enabled, Nat.zero_shiftLeft, Nat.or_zero]

theorem set_security_enabled_get (w : Nat) (b : Bool) :
    security_enabled (set_security_enabled w b) = (security_enabled w || b) := by
  cases b
  · rw [set_security_enabled_false]
    simp
  · have hraw : security_enabled (set_security_enabled w true) = ((1 : Nat) == 1) :=
      congrArg (fun x => x == 1) (fcOr_get_same 3 w)
    rw [hraw]
    simp

theorem set_security_enabled_preserves (w : Nat) (b : Bool) :
    frame_type (set_security_enabled w b) = frame_type w ∧
    frame_pending (set_security_enabled w b) = frame_pending w ∧
    ack_request (set_security_enabled w b) = ack_request w ∧
    pan_id_compression (set_security_enabled w b) = pan_id_compression w ∧
    sequence_number_suppression (set_security_enabled w b) = sequence_number_suppression w ∧
    information_elements_present (set_security_enabled w b) = information_elements_present w ∧
    dst_addressing_mode (set_security_enabled w b) = dst_addressing_mode w ∧
    frame_version (set_security_enabled w b) = frame_version w ∧
    src_addressing_mode (set_security_enabled w b) = src_addressing_mode w := by
  cases b
  · rw [set_security_enabled_false]
    exact ⟨rfl, rfl, rfl, rfl, rfl, rfl, rfl, rfl, rfl⟩
  · refine ⟨?_, ?_, ?_, ?_, ?_, ?_, ?_, ?_, ?_⟩
    · exact congrArg FrameType.ofU8 (fcOr_get_other 3 0 3 (by omega) w)
    · exact congrArg (fun x => x == 1) (fcOr_get_other 3 4 1 (by omega) w)
    · exact congrArg (fun x => x == 1) (fcOr_get_other 3 5 1 (by omega) w)
    · exact congrArg (fun x => x == 1) (fcOr_get_other 3 6 1 (by omega) w)
    · exact congrArg (fun x => x == 1) (fcOr_get_other 3 8 1 (by omega) w)
    · exact congrArg (fun x => x == 1) (fcOr_get_other 3 9 1 (by omega) w)
    · exact congrArg AddressingMode.ofU8 (fcOr_get_other 3 10 2 (by omega) w)
    · exact congrArg FrameVersion.ofU8 (fcOr_get_other 3 12 2 (by omega) w)
    · exact congrArg AddressingMode.ofU8 (fcOr_get_other 3 14 2 (by omega) w)

theorem set_frame_pending_false (w : Nat) : set_frame_pending w false = w := by
  simp [set_frame_pending, Nat.zero_shiftLeft, Nat.or_zero]

theorem set_frame_pending_get (w : Nat) (b : Bool) :
    frame_pending (set_frame_pending w b) = (frame_pending w || b) := by
  cases b
  · rw [set_frame_pending_false]
    simp
  · have hraw : frame_pending (set_frame_pending w true) = ((1 : Nat) == 1) :=
      congrArg (fun x => x == 1) (fcOr_get_same 4 w)
    rw [hraw]
    simp

theorem set_frame_pending_preserves (w : Nat) (b : Bool) :
    frame_type (set_frame_pending w b) = frame_type w ∧
    security_enabled (set_frame_pending w b) = security_enabled w ∧
    ack_request (set_frame_pending w b) = ack_request w ∧
    pan_id_compression (set_frame_pending w b) = pan_id_compression w ∧
    sequence_number_suppression (set_frame_pending w b) = sequence_number_suppression w ∧
    information_elements_present (set_frame_pending w b) = information_elements_present w ∧
    dst_addressing_mode (set_frame_pending w b) = dst_addressing_mode w ∧
    frame_version (set_frame_pending w b) = frame_version w ∧
    src_addressing_mode (set_frame_pending w b) = src_addressing_mode w := by
  cases b
  · rw [set_frame_pending_false]
    exact ⟨rfl, rfl, rfl, rfl, rfl, rfl, rfl, rfl, rfl⟩
  · refine ⟨?_, ?_, ?_, ?_, ?_, ?_, ?_, ?_, ?_⟩
    · exact congrArg FrameType.ofU8 (fcOr_get_other 4 0 3 (by omega) w)
    · exact congrArg (fun x => x == 1) (fcOr_get_other 4 3 1 (by omega) w)
    · exact congrArg (fun x => x == 1) (fcOr_get_other 4 5 1 (by omega) w)
    · exact congrArg (fun x => x == 1) (fcOr_get_other 4 6 1 (by omega) w)
    · exact congrArg (fun x => x == 1) (fcOr_get_other 4 8 1 (by omega) w)
    · exact congrArg (fun x => x == 1) (fcOr_get_other 4 9 1 (by omega) w)
    · exact congrArg AddressingMode.ofU8 (fcOr_get_other 4 10 2 (by omega) w)
    · exact congrArg FrameVersion.ofU8 (fcOr_get_other 4 12 2 (by omega) w)
    · exact congrArg AddressingMode.ofU8 (fcOr_get_other 4 14 2 (by omega) w)

theorem set_ack_request_false (w : Nat) : set_ack_request w false = w := by
  simp [set_ack_request, Nat.zero_shiftLeft, Nat.or_zero]

theorem set_ack_request_get (w : Nat) (b : Bool) :
    ack_request (set_ack_request w b) = (ack_request w || b) := by
  cases b
  · rw [set_ack_request_false]
    simp
  · have hraw : ack_request (set_ack_request w true) = ((1 : Nat) == 1) :=
      congrArg (fun x => x == 1) (fcOr_get_same 5 w)
    rw [hraw]
    simp

theorem set_ack_request_preserves (w : Nat) (b : Bool) :
    frame_type (set_ack_request w b) = frame_type w ∧
    security_enabled (set_ack_request w b) = security_enabled w ∧
    frame_pending (set_ack_request w b) = frame_pending w ∧
    pan_id_compression (set_ack_request w b) = pan_id_compression w ∧
    sequence_number_suppression (set_ack_request w b) = sequence_number_suppression w ∧
    information_elements_present (set_ack_request w b) = information_elements_present w ∧
    dst_addressing_mode (set_ack_request w b) = dst_addressing_mode w ∧
    frame_version (set_ack_request w b) = frame_version w ∧
    src_addressing_mode (set_ack_request w b) = src_addressing_mode w := by
  cases b
  · rw [set_ack_request_false]
    exact ⟨rfl, rfl, rfl, rfl, rfl, rfl, rfl, rfl, rfl⟩
  · refine ⟨?_, ?_, ?_, ?_, ?_, ?_, ?_, ?_, ?_⟩
    · exact congrArg FrameType.ofU8 (fcOr_get_other 5 0 3 (by omega) w)
    · exact congrArg (fun x => x == 1) (fcOr_get_other 5 3 1 (by omega) w)
    · exact congrArg (fun x => x == 1) (fcOr_get_other 5 4 1 (by omega) w)
    · exact congrArg (fun x => x == 1) (fcOr_get_other 5 6 1 (by omega) w)
    · exact congrArg (fun x => x == 1) (fcOr_get_other 5 8 1 (by omega) w)
    · exact congrArg (fun x => x == 1) (fcOr_get_other 5 9 1 (by omega) w)
    · exact congrArg AddressingMode.ofU8 (fcOr_get_other 5 10 2 (by omega) w)
    · exact congrArg FrameVersion.ofU8 (fcOr_get_other 5 12 2 (by omega) w)
    · exact congrArg AddressingMode.ofU8 (fcOr_get_other 5 14 2 (by omega) w)

theorem set_pan_id_compression_false (w : Nat) : set_pan_id_compression w false = w := by
  simp [set_pan_id_compression, Nat.zero_shiftLeft, Nat.or_zero]

theorem set_pan_id_compression_get (w : Nat) (b : Bool) :
    pan_id_compression (set_pan_id_compression w b) = (pan_id_compression w || b) := by
  cases b
  · rw [set_pan_id_compression_false]
    simp
  · have hraw : pan_id_compression (set_pan_id_compression w true) = ((1 : Nat) == 1) :=
      congrArg (fun x => x == 1) (fcOr_get_same 6 w)
    rw [hraw]
    simp

theorem set_pan_id_compression_preserves (w : Nat) (b : Bool) :
    frame_type (set_pan_id_compression w b) = frame_type w ∧
    security_enabled (set_pan_id_compression w b) = security_enabled w ∧
    frame_pending (set_pan_id_compression w b) = frame_pending w ∧
    ack_request (set_pan_id_compression w b) = ack_request w ∧
    sequence_number_suppression (set_pan_id_compression w b) = sequence_number_suppression w ∧
    information_elements_present (set_pan_id_compression w b) = information_elements_present w ∧
    dst_addressing_mode (set_pan_id_compression w b) = dst_addressing_mode w ∧
    frame_version (set_pan_id_compression w b) = frame_version w ∧
    src_addressing_mode (set_pan_id_compression w b) = src_addressing_mode w := by
  cases b
  · rw [set_pan_id_compression_false]
    exact ⟨rfl, rfl, rfl, rfl, rfl, rfl, rfl, rfl, rfl⟩
  · refine ⟨?_, ?_, ?_, ?_, ?_, ?_, ?_, ?_, ?_⟩
    · exact congrArg FrameType.ofU8 (fcOr_get_other 6 0 3 (by omega) w)
    · exact congrArg (fun x => x == 1) (fcOr_get_other 6 3 1 (by omega) w)
    · exact congrArg (fun x => x == 1) (fcOr_get_other 6 4 1 (by omega) w)
    · exact congrArg (fun x => x == 1) (fcOr_get_other 6 5 1 (by omega) w)
    · exact congrArg (fun x => x == 1) (fcOr_get_other 6 8 1 (by omega) w)
    · exact congrArg (fun x => x == 1) (fcOr_get_other 6 9 1 (by omega) w)
    · exact congrArg AddressingMode.ofU8 (fcOr_get_other 6 10 2 (by omega) w)
    · exact congrArg FrameVersion.ofU8 (fcOr_get_other 6 12 2 (by omega) w)
    · exact congrArg AddressingMode.ofU8 (fcOr_get_other 6 14 2 (by omega) w)

theorem set_sequence_number_suppression_false (w : Nat) : set_sequence_number_suppression w false = w := by
  simp [set_sequence_number_suppression, Nat.zero_shiftLeft, Nat.or_zero]

theorem set_sequence_number_suppression_get (w : Nat) (b : Bool) :
    sequence_number_suppression (set_sequence_number_suppression w b) = (sequence_number_suppression w || b) := by
  cases b
  · rw [set_sequence_number_suppression_false]
    simp
  · have hraw : sequence_number_suppression (set_sequence_number_suppression w true) = ((1 : Nat) == 1) :=
      congrArg (fun x => x == 1) (fcOr_get_same 8 w)
    rw [hraw]
    simp

theorem set_sequence_number_suppression_preserves (w : Nat) (b : Bool) :
    frame_type (set_sequence_number_suppression w b) = frame_type w ∧
    security_enabled (set_sequence_number_suppression w b) = security_enabled w ∧
    frame_pending (set_sequence_number_suppression w b) = frame_pending w ∧
    ack_request (set_sequence_number_suppression w b) = ack_request w ∧
    pan_id_compression (set_sequence_number_suppression w b) = pan_id_compression w ∧
    information_elements_present (set_sequence_number_suppression w b) = information_elements_present w ∧
    dst_addressing_mode (set_sequence_number_suppression w b) = dst_addressing_mode w ∧
    frame_version (set_sequence_number_suppression w b) = frame_version w ∧
    src_addressing_mode (set_sequence_number_suppression w b) = src_addressing_mode w := by
  cases b
  · rw [set_sequence_number_suppression_false]
    exact ⟨rfl, rfl, rfl, rfl, rfl, rfl, rfl, rfl, rfl⟩
  · refine ⟨?_, ?_, ?_, ?_, ?_, ?_, ?_, ?_, ?_⟩
    · exact congrArg FrameType.ofU8 (fcOr_get_other 8 0 3 (by omega) w)
    · exact congrArg (fun x => x == 1) (fcOr_get_other 8 3 1 (by omega) w)
    · exact congrArg (fun x => x == 1) (fcOr_get_other 8 4 1 (by omega) w)
    · exact congrArg (fun x => x == 1) (fcOr_get_other 8 5 1 (by omega) w)
    · exact congrArg (fun x => x == 1) (fcOr_get_other 8 6 1 (by omega) w)
    · exact congrArg (fun x => x == 1) (fcOr_get_other 8 9 1 (by omega) w)
    · exact congrArg AddressingMode.ofU8 (fcOr_get_other 8 10 2 (by omega) w)
    · exact congrArg FrameVersion.ofU8 (fcOr_get_other 8 12 2 (by omega) w)
    · exact congrArg AddressingMode.ofU8 (fcOr_get_other 8 14 2 (by omega) w)

theorem set_information_elements_present_false (w : Nat) : set_information_elements_present w false = w := by
  simp [set_information_elements_present, Nat.zero_shiftLeft, Nat.or_zero]

theorem set_information_elements_present_get (w : Nat) (b : Bool) :
    information_elements_present (set_information_elements_present w b) = (information_elements_present w || b) := by
  cases b
  · rw [set_information_elements_present_false]
    simp
  · have hraw : information_elements_present (set_information_elements_present w true) = ((1 : Nat) == 1) :=
      congrArg (fun x => x == 1) (fcOr_get_same 9 w)
    rw [hraw]
    simp

theorem set_information_elements_present_preserves (w : Nat) (b : Bool) :
    frame_type (set_information_elements_present w b) = frame_type w ∧
    security_enabled (set_information_elements_present w b) = security_enabled w ∧
    frame_pending (set_information_elements_present w b) = frame_pending w ∧
    ack_request (set_information_elements_present w b) = ack_request w ∧
    pan_id_compression (set_information_elements_present w b) = pan_id_compression w ∧
    sequence_number_suppression (set_information_elements_present w b) = sequence_number_suppression w ∧
    dst_addressing_mode (set_information_elements_present w b) = dst_addressing_mode w ∧
    frame_version (set_information_elements_present w b) = frame_version w ∧
    src_addressing_mode (set_information_elements_present w b) = src_addressing_mode w := by
  cases b
  · rw [set_information_elements_present_false]
    exact ⟨rfl, rfl, rfl, rfl, rfl, rfl, rfl, rfl, rfl⟩
  · refine ⟨?_, ?_, ?_, ?_, ?_, ?_, ?_, ?_, ?_⟩
    · exact congrArg FrameType.ofU8 (fcOr_get_other 9 0 3 (by omega) w)
    · exact congrArg (fun x => x == 1) (fcOr_get_other 9 3 1 (by omega) w)
    · exact congrArg (fun x => x == 1) (fcOr_get_other 9 4 1 (by omega) w)
    · exact congrArg (fun x => x == 1) (fcOr_get_other 9 5 1 (by omega) w)
    · exact congrArg (fun x => x == 1) (fcOr_get_other 9 6 1 (by omega) w)
    · exact congrArg (fun x => x == 1) (fcOr_get_other 9 8 1 (by omega) w)
    · exact congrArg AddressingMode.ofU8 (fcOr_get_other 9 10 2 (by omega) w)
    · exact congrArg FrameVersion.ofU8 (fcOr_get_other 9 12 2 (by omega) w)
    · exact congrArg AddressingMode.ofU8 (fcOr_get_other 9 14 2 (by omega) w)


/-! ## Claim theorems -/

/-- C7: for every buffer, `FrameControl::new` returns an error exactly when
the buffer is shorter than 2 bytes, and otherwise returns the buffer itself,
which is what `new_unchecked` (which never fails) wraps. -/
theorem fcNew_fails_iff_short (buffer : List Nat) :
    (fcNew buffer = none ↔ buffer.length < 2) ∧
    (2 ≤ buffer.length → fcNew buffer = some (fcNewUnchecked buffer)) := by
  unfold fcNew fcNewUnchecked
  constructor
  · split
    · simp; omega
    · simp; omega
  · intro h
    simp [h]

/-- Witness for C7 at the concrete buffers `[0]` (too short) and `[0, 0]`. -/
theorem fcNew_fails_iff_short_witness :
    fcNew [0] = none ∧ fcNew [0, 0] = some (fcNewUnchecked [0, 0]) :=
  ⟨(fcNew_fails_iff_short [0]).1.mpr (by decide), (fcNew_fails_iff_short [0, 0]).2 (by decide)⟩

/-- C10: `Address::Absent` is not broadcast and is unicast; `is_unicast` is
the negation of `is_broadcast`, so every address other than
`Short([0xff, 0xff])` — including `Absent` and the all-`0xff` Extended
address — is classified as unicast. -/
theorem absent_is_unicast :
    Address.Absent.is_broadcast = false ∧
    Address.Absent.is_unicast = true ∧
    (∀ a : Address, a.is_unicast = ! a.is_broadcast) ∧
    (∀ a : Address, a ≠ .Short [0xff, 0xff] → a.is_unicast = true) ∧
    (Address.Extended (List.replicate 8 0xff)).is_unicast = true := by
  refine ⟨rfl, rfl, fun a => rfl, ?_, by decide⟩
  intro a h
  simp [Address.is_unicast, Address.is_broadcast, Address.BROADCAST, h]

/-- Witness for C10: the non-broadcast hypothesis discharged at `Absent`. -/
theorem absent_is_unicast_witness :
    Address.Absent ≠ Address.Short [0xff, 0xff] ∧ Address.Absent.is_unicast = true :=
  ⟨by decide, absent_is_unicast.2.2.2.1 Address.Absent (by decide)⟩

/-- C4: whenever the first content byte (the timeslot ID) is 0, the decoded
timings are the IEEE default table for guard time 2200 µs — independent of
every wire byte after the ID — with the twelve claimed values. -/
theorem timeslot_default_table (data : List Nat) (h : tschTimeslotId data = 0) :
    timeslot_timings data = TschTimeslotTimings.new 0 DEFAULT_GUARD_TIME ∧
    (timeslot_timings data).cca_offset = 1800 ∧
    (timeslot_timings data).cca = 128 ∧
    (timeslot_timings data).tx_offset = 2120 ∧
    (timeslot_timings data).rx_offset = 2120 - 2200 / 2 ∧
    (timeslot_timings data).rx_ack_delay = 800 ∧
    (timeslot_timings data).tx_ack_delay = 1000 ∧
    (timeslot_timings data).rx_wait = 2200 ∧
    (timeslot_timings data).ack_wait = 400 ∧
    (timeslot_timings data).rx_tx = 192 ∧
    (timeslot_timings data).max_ack = 2400 ∧
    (timeslot_timings data).max_tx = 4256 ∧
    (timeslot_timings data).time_slot_length = 10000 := by
  have hd : timeslot_timings data = TschTimeslotTimings.new 0 DEFAULT_GUARD_TIME := by
    unfold timeslot_timings
    simp [h]
  refine ⟨hd, ?_, ?_, ?_, ?_, ?_, ?_, ?_, ?_, ?_, ?_, ?_, ?_⟩ <;> rw [hd] <;> decide

/-- Witness for C4 at a concrete zero-ID record whose trailing wire bytes are
non-zero garbage. -/
theorem timeslot_default_table_witness :
    tschTimeslotId [0, 9, 9, 9] = 0 ∧
    timeslot_timings [0, 9, 9, 9] = TschTimeslotTimings.new 0 DEFAULT_GUARD_TIME :=
  ⟨by decide, (timeslot_default_table [0, 9, 9, 9] (by decide)).1⟩

/-- C5 (code bug): on a record longer than 25 bytes the source selects a
3-byte slice for `max_tx` and `time_slot_length` at the shifted offsets but
still decodes it with `u16::from_le_bytes` on the first two slice bytes, so
the high byte is dropped: `max_tx` comes out as 4096, not the full 3-byte
value 69632 the claim (and the source's own `TODO` comments) call for. -/
theorem long_timeslot_drops_high_byte :
    longTimeslotRecord.length = 27 ∧
    (timeslot_timings longTimeslotRecord).max_tx = 4096 ∧
    (timeslot_timings longTimeslotRecord).max_tx ≠ 69632 ∧
    (timeslot_timings longTimeslotRecord).time_slot_length = 10000 := by
  decide

/-- C9: the first `LinkDescriptorIterator::next` call is always `Some`, even
over an empty slice; so a slotframe descriptor with a zero `links` field
yields exactly one link-descriptor item, while
`SlotframeDescriptorIterator` with slotframe count 0 yields zero items. -/
theorem link_iterator_first_always_some :
    (∀ data : List Nat, ((ldNext (ldInit data)).1).isSome = true) ∧
    (∀ d : List Nat, sfLinks d = 0 →
      (ldNext (link_descriptors d)).1 = some [] ∧
      (ldNext (ldNext (link_descriptors d)).2).1 = none) ∧
    (∀ data : List Nat, (sfNext (sfIterNew 0 data)).1 = none) := by
  refine ⟨fun data => rfl, ?_, fun data => rfl⟩
  intro d h
  constructor
  · simp [link_descriptors, ldInit, ldNext, h]
  · simp [link_descriptors, ldInit, ldNext, h]

/-- Witness for C9: the zero-links slotframe descriptor `[7, 0, 0, 0]`. -/
theorem link_iterator_first_always_some_witness :
    sfLinks [7, 0, 0, 0] = 0 ∧
    (ldNext (link_descriptors [7, 0, 0, 0])).1 = some [] ∧
    (ldNext (ldNext (link_descriptors [7, 0, 0, 0])).2).1 = none :=
  ⟨by decide, link_iterator_first_always_some.2.1 [7, 0, 0, 0] (by decide)⟩

/-- C1 counterexample: the Frame Control word 9216 (0x2400) has frame version
2020, destination addressing mode `Unknown` (raw code 0b01), source mode
`Absent` and compression clear — a combination outside the claim's 13-case
table — yet the resolver returns `Some`, not `None`: the source's wildcard
`(dst, Absent, false)` arm also captures `Unknown`. -/
theorem resolver_2020_unknown_resolves :
    frame_version 9216 = FrameVersion.Ieee802154 ∧
    dst_addressing_mode 9216 = AddressingMode.Unknown ∧
    src_addressing_mode 9216 = AddressingMode.Absent ∧
    pan_id_compression 9216 = false ∧
    address_present_flags 9216 =
      some (true, AddressingMode.Unknown, false, AddressingMode.Absent) ∧
    address_present_flags 9216 ≠ none := by
  refine ⟨by decide, by decide, by decide, by decide, by decide, by decide⟩

/-- C1 amended: under the 2020 frame version the resolver agrees with the
spec's 13-case table on every combination of {Absent, Short, Extended} modes
and the compression bit, and returns `None` for every combination outside
the table except the four where `Unknown` stands opposite `Absent`: those
resolve through the wildcard `(dst, Absent, _)` / `(Absent, src, _)` rows
with `Unknown` treated as a present mode. -/
theorem resolver_2020_matches_table (w : Nat)
    (hv : frame_version w = FrameVersion.Ieee802154) :
    address_present_flags w =
      table2020_amended (dst_addressing_mode w) (src_addressing_mode w)
        (pan_id_compression w) := by
  have h : ∀ d s c, resolve_flags FrameVersion.Ieee802154 d s c = table2020_amended d s c := by
    intro d s c
    cases d <;> cases s <;> cases c <;> rfl
  unfold address_present_flags
  rw [hv]
  exact h _ _ _

/-- Witness for C1 at the concrete word 9216. -/
theorem resolver_2020_matches_table_witness :
    frame_version 9216 = FrameVersion.Ieee802154 ∧
    address_present_flags 9216 =
      table2020_amended (dst_addressing_mode 9216) (src_addressing_mode 9216)
        (pan_id_compression 9216) :=
  ⟨by decide, resolver_2020_matches_table 9216 (by decide)⟩

/-- C8: under the 2020 frame version, with destination mode `Absent` and a
Short or Extended source mode, the resolved layout is the same for both
values of the PAN-ID-compression bit: no dst PAN ID, dst Absent, src PAN ID
present, src mode as given. -/
theorem resolver_dst_absent_ignores_compression (w : Nat)
    (hv : frame_version w = FrameVersion.Ieee802154)
    (hd : dst_addressing_mode w = AddressingMode.Absent)
    (hs : src_addressing_mode w = AddressingMode.Short ∨
      src_addressing_mode w = AddressingMode.Extended) :
    address_present_flags w =
      some (false, AddressingMode.Absent, true, src_addressing_mode w) := by
  unfold address_present_flags
  rw [hv, hd]
  rcases hs with hs | hs <;> rw [hs] <;> rcases pan_id_compression w <;> rfl

/-- Witness for C8 at the concrete word 40960 (version 2020, dst Absent,
src Short, compression clear). -/
theorem resolver_dst_absent_ignores_compression_witness :
    frame_version 40960 = FrameVersion.Ieee802154 ∧
    dst_addressing_mode 40960 = AddressingMode.Absent ∧
    src_addressing_mode 40960 = AddressingMode.Short ∧
    address_present_flags 40960 =
      some (false, AddressingMode.Absent, true, src_addressing_mode 40960) :=
  ⟨by decide, by decide, by decide,
   resolver_dst_absent_ignores_compression 40960 (by decide) (by decide) (Or.inl (by decide))⟩

/-- C3 counterexample: on the word 8 (security bit already set, i.e. buffer
`[0x08, 0x00]`), `set_security_enabled(false)` does not clear the bit — the
boolean setters only OR the shifted value in — so the getter still reads
`true`, refuting the claim that after `set_X(v)` the getter returns `v` for
every value including boolean `false`. -/
theorem bool_setter_cannot_clear :
    security_enabled 8 = true ∧
    set_security_enabled 8 false = 8 ∧
    security_enabled (set_security_enabled 8 false) ≠ false := by
  refine ⟨by decide, by decide, by decide⟩


/-- C3 amended: the multi-bit setters (frame type, addressing modes, frame
version) clear the field mask and OR the shifted masked value in, so their
getters read the set value back for every in-range enum value (for the frame
version even `Unknown` encodes in range); the boolean setters only OR the
shifted bit in, so the getter afterwards reads the OR of the old bit and the
set value — `set_X(true)` reads back `true`, while `set_X(false)` leaves the
word entirely unchanged; and no setter changes the read value of any other
field. -/
theorem frame_control_setter_behavior (w : Nat) (ft : FrameType) (b : Bool)
    (m m' : AddressingMode) (fv : FrameVersion) :
    (ft ≠ FrameType.Unknown → frame_type (set_frame_type w ft) = ft) ∧
    (m ≠ AddressingMode.Unknown →
      dst_addressing_mode (set_dst_addressing_mode w m) = m) ∧
    (m' ≠ AddressingMode.Unknown →
      src_addressing_mode (set_src_addressing_mode w m') = m') ∧
    frame_version (set_frame_version w fv) = fv ∧
    security_enabled (set_security_enabled w b) = (security_enabled w || b) ∧
    frame_pending (set_frame_pending w b) = (frame_pending w || b) ∧
    ack_request (set_ack_request w b) = (ack_request w || b) ∧
    pan_id_compression (set_pan_id_compression w b) = (pan_id_compression w || b) ∧
    sequence_number_suppression (set_sequence_number_suppression w b) =
      (sequence_number_suppression w || b) ∧
    information_elements_present (set_information_elements_present w b) =
      (information_elements_present w || b) ∧
    set_security_enabled w false = w ∧
    set_frame_pending w false = w ∧
    set_ack_request w false = w ∧
    set_pan_id_compression w false = w ∧
    set_sequence_number_suppression w false = w ∧
    set_information_elements_present w false = w ∧
    (security_enabled (set_frame_type w ft) = security_enabled w ∧
      frame_pending (set_frame_type w ft) = frame_pending w ∧
      ack_request (set_frame_type w ft) = ack_request w ∧
      pan_id_compression (set_frame_type w ft) = pan_id_compression w ∧
      sequence_number_suppression (set_frame_type w ft) = sequence_number_suppression w ∧
      information_elements_present (set_frame_type w ft) = information_elements_present w ∧
      dst_addressing_mode (set_frame_type w ft) = dst_addressing_mode w ∧
      frame_version (set_frame_type w ft) = frame_version w ∧
      src_addressing_mode (set_frame_type w ft) = src_addressing_mode w) ∧
    (frame_type (set_security_enabled w b) = frame_type w ∧
      frame_pending (set_security_enabled w b) = frame_pending w ∧
      ack_request (set_security_enabled w b) = ack_request w ∧
      pan_id_compression (set_security_enabled w b) = pan_id_compression w ∧
      sequence_number_suppression (set_security_enabled w b) = sequence_number_suppression w ∧
      information_elements_present (set_security_enabled w b) = information_elements_present w ∧
      dst_addressing_mode (set_security_enabled w b) = dst_addressing_mode w ∧
      frame_version (set_security_enabled w b) = frame_version w ∧
      src_addressing_mode (set_security_enabled w b) = src_addressing_mode w) ∧
    (frame_type (set_frame_pending w b) = frame_type w ∧
      security_enabled (set_frame_pending w b) = security_enabled w ∧
      ack_request (set_frame_pending w b) = ack_request w ∧
      pan_id_compression (set_frame_pending w b) = pan_id_compression w ∧
      sequence_number_suppression (set_frame_pending w b) = sequence_number_suppression w ∧
      information_elements_present (set_frame_pending w b) = information_elements_present w ∧
      dst_addressing_mode (set_frame_pending w b) = dst_addressing_mode w ∧
      frame_version (set_frame_pending w b) = frame_version w ∧
      src_addressing_mode (set_frame_pending w b) = src_addressing_mode w) ∧
    (frame_type (set_ack_request w b) = frame_type w ∧
      security_enabled (set_ack_request w b) = security_enabled w ∧
      frame_pending (set_ack_request w b) = frame_pending w ∧
      pan_id_compression (set_ack_request w b) = pan_id_compression w ∧
      sequence_number_suppression (set_ack_request w b) = sequence_number_suppression w ∧
      information_elements_present (set_ack_request w b) = information_elements_present w ∧
      dst_addressing_mode (set_ack_request w b) = dst_addressing_mode w ∧
      frame_version (set_ack_request w b) = frame_version w ∧
      src_addressing_mode (set_ack_request w b) = src_addressing_mode w) ∧
    (frame_type (set_pan_id_compression w b) = frame_type w ∧
      security_enabled (set_pan_id_compression w b) = security_enabled w ∧
      frame_pending (set_pan_id_compression w b) = frame_pending w ∧
      ack_request (set_pan_id_compression w b) = ack_request w ∧
      sequence_number_suppression (set_pan_id_compression w b) = sequence_number_suppression w ∧
      information_elements_present (set_pan_id_compression w b) = information_elements_present w ∧
      dst_addressing_mode (set_pan_id_compression w b) = dst_addressing_mode w ∧
      frame_version (set_pan_id_compression w b) = frame_version w ∧
      src_addressing_mode (set_pan_id_compression w b) = src_addressing_mode w) ∧
    (frame_type (set_sequence_number_suppression w b) = frame_type w ∧
      security_enabled (set_sequence_number_suppression w b) = security_enabled w ∧
      frame_pending (set_sequence_number_suppression w b) = frame_pending w ∧
      ack_request (set_sequence_number_suppression w b) = ack_request w ∧
      pan_id_compression (set_sequence_number_suppression w b) = pan_id_compression w ∧
      information_elements_present (set_sequence_number_suppression w b) =
        information_elements_present w ∧
      dst_addressing_mode (set_sequence_number_suppression w b) = dst_addressing_mode w ∧
      frame_version (set_sequence_number_suppression w b) = frame_version w ∧
      src_addressing_mode (set_sequence_number_suppression w b) = src_addressing_mode w) ∧
    (frame_type (set_information_elements_present w b) = frame_type w ∧
      security_enabled (set_information_elements_present w b) = security_enabled w ∧
      frame_pending (set_information_elements_present w b) = frame_pending w ∧
      ack_request (set_information_elements_present w b) = ack_request w ∧
      pan_id_compression (set_information_elements_present w b) = pan_id_compression w ∧
      sequence_number_suppression (set_information_elements_present w b) =
        sequence_number_suppression w ∧
      dst_addressing_mode (set_information_elements_present w b) = dst_addressing_mode w ∧
      frame_version (set_information_elements_present w b) = frame_version w ∧
      src_addressing_mode (set_information_elements_present w b) = src_addressing_mode w) ∧
    (frame_type (set_dst_addressing_mode w m) = frame_type w ∧
      security_enabled (set_dst_addressing_mode w m) = security_enabled w ∧
      frame_pending (set_dst_addressing_mode w m) = frame_pending w ∧
      ack_request (set_dst_addressing_mode w m) = ack_request w ∧
      pan_id_compression (set_dst_addressing_mode w m) = pan_id_compression w ∧
      sequence_number_suppression (set_dst_addressing_mode w m) =
        sequence_number_suppression w ∧
      information_elements_present (set_dst_addressing_mode w m) =
        information_elements_present w ∧
      frame_version (set_dst_addressing_mode w m) = frame_version w ∧
      src_addressing_mode (set_dst_addressing_mode w m) = src_addressing_mode w) ∧
    (frame_type (set_frame_version w fv) = frame_type w ∧
      security_enabled (set_frame_version w fv) = security_enabled w ∧
      frame_pending (set_frame_version w fv) = frame_pending w ∧
      ack_request (set_frame_version w fv) = ack_request w ∧
      pan_id_compression (set_frame_version w fv) = pan_id_compression w ∧
      sequence_number_suppression (set_frame_version w fv) = sequence_number_suppression w ∧
      information_elements_present (set_frame_version w fv) = information_elements_present w ∧
      dst_addressing_mode (set_frame_version w fv) = dst_addressing_mode w ∧
      src_addressing_mode (set_frame_version w fv) = src_addressing_mode w) ∧
    (frame_type (set_src_addressing_mode w m') = frame_type w ∧
      security_enabled (set_src_addressing_mode w m') = security_enabled w ∧
      frame_pending (set_src_addressing_mode w m') = frame_pending w ∧
      ack_request (set_src_addressing_mode w m') = ack_request w ∧
      pan_id_compression (set_src_addressing_mode w m') = pan_id_compression w ∧
      sequence_number_suppression (set_src_addressing_mode w m') =
        sequence_number_suppression w ∧
      information_elements_present (set_src_addressing_mode w m') =
        information_elements_present w ∧
      dst_addressing_mode (set_src_addressing_mode w m') = dst_addressing_mode w ∧
      frame_version (set_src_addressing_mode w m') = frame_version w) :=
  ⟨fun h => set_frame_type_get w ft h,
   fun h => set_dst_addressing_mode_get w m h,
   fun h => set_src_addressing_mode_get w m' h,
   set_frame_version_get w fv,
   set_security_enabled_get w b,
   set_frame_pending_get w b,
   set_ack_request_get w b,
   set_pan_id_compression_get w b,
   set_sequence_number_suppression_get w b,
   set_information_elements_present_get w b,
   set_security_enabled_false w,
   set_frame_pending_false w,
   set_ack_request_false w,
   set_pan_id_compression_false w,
   set_sequence_number_suppression_false w,
   set_information_elements_present_false w,
   set_frame_type_preserves w ft,
   set_security_enabled_preserves w b,
   set_frame_pending_preserves w b,
   set_ack_request_preserves w b,
   set_pan_id_compression_preserves w b,
   set_sequence_number_suppression_preserves w b,
   set_information_elements_present_preserves w b,
   set_dst_addressing_mode_preserves w m,
   set_frame_version_preserves w fv,
   set_src_addressing_mode_preserves w m'⟩

/-- Witness for C3 at the all-ones word 65535 with concrete enum values. -/
theorem frame_control_setter_behavior_witness :
    frame_type (set_frame_type 65535 FrameType.Data) = FrameType.Data ∧
    dst_addressing_mode (set_dst_addressing_mode 65535 AddressingMode.Short) =
      AddressingMode.Short ∧
    src_addressing_mode (set_src_addressing_mode 65535 AddressingMode.Extended) =
      AddressingMode.Extended :=
  ⟨(frame_control_setter_behavior 65535 .Data true .Short .Extended .Ieee802154).1
      (by decide),
   (frame_control_setter_behavior 65535 .Data true .Short .Extended .Ieee802154).2.1
      (by decide),
   (frame_control_setter_behavior 65535 .Data true .Short .Extended .Ieee802154).2.2.1
      (by decide)⟩


/-- Helper: a `readBytes` slice that starts right after `pre` and spans
exactly `mid` returns `mid`. -/
theorem readBytes_at (pre mid post : List Nat) (n : Nat) (hn : mid.length = n) :
    readBytes (pre ++ (mid ++ post)) pre.length n = mid := by
  unfold readBytes
  rw [List.drop_left, ← hn, List.take_left]

/-- Helper: a `readBytes` slice that starts right after `pre` and spans the
whole remainder `mid` returns `mid`. -/
theorem readBytes_last (pre mid : List Nat) (n : Nat) (hn : mid.length = n) :
    readBytes (pre ++ mid) pre.length n = mid := by
  unfold readBytes
  rw [List.drop_left, ← hn, List.take_length]

/-- C2 counterexample: with Frame Control word 10304 (0x2840: version 2020,
dst Short, src Absent, compression set, so the layout is just the 2-byte dst
address), writing `Short [1, 2]` emits the bytes `[1, 2]` unreversed —
`write_fields` copies `addr.as_bytes()` directly — and reading them back
through `dst_address` (which does reverse) returns `Short [2, 1]`, not the
written address. -/
theorem write_then_read_not_identity :
    write_fields_bytes
        (AddressingFieldsRepr.mk none none (some (Address.Short [1, 2]))
          (some Address.Absent)) = [1, 2] ∧
    address_present_flags 10304 =
      some (false, AddressingMode.Short, false, AddressingMode.Absent) ∧
    dst_address [1, 2] 10304 = some (Address.Short [2, 1]) ∧
    dst_address [1, 2] 10304 ≠ some (Address.Short [1, 2]) := by
  refine ⟨by decide, by decide, by decide, by decide⟩

/-- C2 amended: for every frame whose addressing layout resolves (to modes
other than `Unknown`), the read accessors return the raw buffer bytes
reversed, but `write_fields` writes each address's stored bytes as they are
(no reversal); consequently writing an `AddressingFieldsRepr` and re-reading
it through the resolver returns each present address with its payload bytes
byte-reversed, not the original addresses. -/
theorem write_then_read_reverses (w : Nat) (dp sp : Bool) (dm sm : AddressingMode)
    (p q : Nat) (a b : List Nat)
    (hflags : address_present_flags w = some (dp, dm, sp, sm))
    (hdm : dm ≠ AddressingMode.Unknown) (hsm : sm ≠ AddressingMode.Unknown)
    (ha : a.length = dm.size) (hb : b.length = sm.size) :
    dst_address
        (write_fields_bytes
          (AddressingFieldsRepr.mk (if dp then some p else none)
            (if sp then some q else none) (some (mkAddr dm a)) (some (mkAddr sm b)))) w =
      some (mkAddr dm a.reverse) ∧
    src_address
        (write_fields_bytes
          (AddressingFieldsRepr.mk (if dp then some p else none)
            (if sp then some q else none) (some (mkAddr dm a)) (some (mkAddr sm b)))) w =
      some (mkAddr sm b.reverse) := by
  have hA : (mkAddr dm a).as_bytes = a := by
    cases dm
    · have h0 : a = [] := List.length_eq_zero.mp ha
      simp [mkAddr, Address.as_bytes, h0]
    · rfl
    · rfl
    · exact absurd rfl hdm
  have hB : (mkAddr sm b).as_bytes = b := by
    cases sm
    · have h0 : b = [] := List.length_eq_zero.mp hb
      simp [mkAddr, Address.as_bytes, h0]
    · rfl
    · rfl
    · exact absurd rfl hsm
  have hbytes :
      write_fields_bytes
          (AddressingFieldsRepr.mk (if dp then some p else none)
            (if sp then some q else none) (some (mkAddr dm a)) (some (mkAddr sm b))) =
        (if dp then toLeBytes2 p else []) ++
          (a ++ ((if sp then toLeBytes2 q else []) ++ b)) := by
    unfold write_fields_bytes
    cases dp <;> cases sp <;> simp [hA, hB, List.append_assoc]
  have hP1len : (if dp then toLeBytes2 p else []).length = (if dp then 2 else 0) := by
    cases dp <;> rfl
  have hP2len : (if sp then toLeBytes2 q else []).length = (if sp then 2 else 0) := by
    cases sp <;> rfl
  constructor
  · simp only [dst_address, hflags]
    cases dm
    · rfl
    · rw [hbytes, ← hP1len, readBytes_at _ _ _ 2 ha]
      rfl
    · rw [hbytes, ← hP1len, readBytes_at _ _ _ 8 ha]
      rfl
    · exact absurd rfl hdm
  · simp only [src_address, hflags]
    have hoff :
        (if dp then 2 else 0) + dm.size + (if sp then 2 else 0) =
          ((if dp then toLeBytes2 p else []) ++
            (a ++ (if sp then toLeBytes2 q else []))).length := by
      rw [List.length_append, List.length_append, hP1len, hP2len, ha]
      omega
    have hre :
        (if dp then toLeBytes2 p else []) ++
            (a ++ ((if sp then toLeBytes2 q else []) ++ b)) =
          ((if dp then toLeBytes2 p else []) ++
            (a ++ (if sp then toLeBytes2 q else []))) ++ b := by
      simp [List.append_assoc]
    cases sm
    · rfl
    · rw [hbytes, hre, hoff, readBytes_last _ _ 2 hb]
      rfl
    · rw [hbytes, hre, hoff, readBytes_last _ _ 8 hb]
      rfl
    · exact absurd rfl hsm

/-- Witness for C2 at word 59392 (0xE800: version 2020, dst Short,
src Extended, compression clear — both PAN IDs present) with dst address
`[1, 2]` and src address `[1..8]`: re-reading returns the byte-reversed
addresses. -/
theorem write_then_read_reverses_witness :
    address_present_flags 59392 =
      some (true, AddressingMode.Short, true, AddressingMode.Extended) ∧
    dst_address
        (write_fields_bytes
          (AddressingFieldsRepr.mk (some 4660) (some 22136)
            (some (Address.Short [1, 2]))
            (some (Address.Extended [1, 2, 3, 4, 5, 6, 7, 8])))) 59392 =
      some (Address.Short [2, 1]) ∧
    src_address
        (write_fields_bytes
          (AddressingFieldsRepr.mk (some 4660) (some 22136)
            (some (Address.Short [1, 2]))
            (some (Address.Extended [1, 2, 3, 4, 5, 6, 7, 8])))) 59392 =
      some (Address.Extended [8, 7, 6, 5, 4, 3, 2, 1]) :=
  ⟨by decide,
   (write_then_read_reverses 59392 true true .Short .Extended 4660 22136 [1, 2]
      [1, 2, 3, 4, 5, 6, 7, 8] (by decide) (by decide) (by decide) (by decide)
      (by decide)).1,
   (write_then_read_reverses 59392 true true .Short .Extended 4660 22136 [1, 2]
      [1, 2, 3, 4, 5, 6, 7, 8] (by decide) (by decide) (by decide) (by decide)
      (by decide)).2⟩


/-- Helper: `getD` on an append reads from the left list inside its bounds. -/
theorem getD_append_left (l l' : List Nat) (i : Nat) (h : i < l.length) :
    (l ++ l').getD i 0 = l.getD i 0 := by
  simp [List.getD, List.getElem?_append, h]

/-- Helper: the nested-IE header of a stream starting with a whole element is
the element's own header. -/
theorem nestedHeader_append (e f : List Nat) (h2 : 2 ≤ e.length) :
    nestedHeader (e ++ f) = nestedHeader e := by
  unfold nestedHeader
  rw [getD_append_left _ _ 0 (by omega), getD_append_left _ _ 1 (by omega)]

/-- Helper: the declared length read at the start of a stream starting with a
whole element is the element's own declared length. -/
theorem nested_length_append (e f : List Nat) (h2 : 2 ≤ e.length) :
    nested_length (e ++ f) = nested_length e := by
  unfold nested_length nested_is_long
  rw [nestedHeader_append e f h2]

/-- Helper: iterating a stream from an offset that skips a whole leading
block behaves like iterating the rest of the stream. -/
theorem nestedCollect_shift (e r : List Nat) (j : Nat) :
    nestedCollect (e ++ r) (e.length + j) = nestedCollect r j := by
  generalize hn : r.length - j = n
  induction n using Nat.strong_induction_on generalizing j with
  | _ n ih =>
    rw [nestedCollect, nestedCollect]
    have hdrop : (e ++ r).drop (e.length + j) = r.drop j := by
      rw [List.drop_append]
    by_cases hc : j < r.length
    · rw [dif_pos (by simp only [List.length_append]; omega), dif_pos hc, hdrop]
      dsimp only
      congr 1
      have harg : e.length + j + (nested_length (r.drop j) + 2) =
          e.length + (j + (nested_length (r.drop j) + 2)) := by
        omega
      rw [harg]
      exact ih (r.length - (j + (nested_length (r.drop j) + 2))) (by omega)
        (j + (nested_length (r.drop j) + 2)) rfl
    · rw [dif_neg (by simp only [List.length_append]; omega), dif_neg hc]

/-- Helper: over the concatenation of well-formed elements (each occupying
exactly `length() + 2` bytes), the iterator yields exactly those elements. -/
theorem nestedCollect_flatten (es : List (List Nat)) (hne : es ≠ [])
    (hwf : ∀ e ∈ es, e.length = nested_length e + 2) :
    nestedCollect es.flatten 0 = es := by
  induction es with
  | nil => exact absurd rfl hne
  | cons e rest ih =>
    have hwfe : e.length = nested_length e + 2 := hwf e (by simp)
    have h2 : 2 ≤ e.length := by omega
    show nestedCollect (e ++ rest.flatten) 0 = e :: rest
    rw [nestedCollect]
    rw [dif_pos (by simp only [List.length_append]; omega)]
    rw [List.drop_zero, nested_length_append e rest.flatten h2]
    dsimp only
    congr 1
    · rw [← hwfe, List.take_left]
    · have hoff : 0 + (nested_length e + 2) = e.length + 0 := by omega
      rw [hoff, nestedCollect_shift]
      cases rest with
      | nil => rw [nestedCollect]; simp
      | cons r rest' =>
        exact ih (by simp) (fun x hx => hwf x (by simp [hx]))

/-- Helper: with well-formed elements the cumulative consumed sizes
(`length() + 2` each) sum to the stream length. -/
theorem nested_sizes_sum (es : List (List Nat))
    (hwf : ∀ e ∈ es, e.length = nested_length e + 2) :
    (es.map fun e => nested_length e + 2).sum = es.flatten.length := by
  induction es with
  | nil => rfl
  | cons e rest ih =>
    have hwfe : e.length = nested_length e + 2 := hwf e (by simp)
    simp only [List.map_cons, List.sum_cons, List.flatten_cons, List.length_append]
    rw [ih (fun x hx => hwf x (by simp [hx])), ← hwfe]

/-- C6: over a concatenation of N ≥ 1 well-formed nested IEs (each occupying
exactly `length() + 2` bytes of the stream), the iterator yields exactly
those N elements and their cumulative consumed sizes equal the stream
length; and a single short-format element with content length L ≤ 127
reports `length() = L`, `is_short() = true`, and `content()` exactly the L
bytes after the 2-byte header. -/
theorem nested_ie_iterator_exact :
    (∀ es : List (List Nat), es ≠ [] →
      (∀ e ∈ es, e.length = nested_length e + 2) →
      nestedCollect es.flatten 0 = es ∧
      (es.map fun e => nested_length e + 2).sum = es.flatten.length) ∧
    (∀ (h0 h1 : Nat) (c : List Nat), h0 < 256 → h1 < 128 →
      nestedHeader (h0 :: h1 :: c) &&& 127 = c.length →
      nested_is_short (h0 :: h1 :: c) = true ∧
      nested_length (h0 :: h1 :: c) = c.length ∧
      nested_content (h0 :: h1 :: c) = c) := by
  constructor
  · intro es hne hwf
    exact ⟨nestedCollect_flatten es hne hwf, nested_sizes_sum es hwf⟩
  · intro h0 h1 c hb0 hb1 hlen
    have hword : nestedHeader (h0 :: h1 :: c) = h0 + 256 * h1 := rfl
    have hlong : nested_is_long (h0 :: h1 :: c) = false := by
      unfold nested_is_long
      rw [hword]
      have hsmall : (h0 + 256 * h1) >>> 15 = 0 := by
        rw [Nat.shiftRight_eq_div_pow]
        exact Nat.div_eq_of_lt (by omega)
      rw [hsmall]
      rfl
    have hl : nested_length (h0 :: h1 :: c) = c.length := by
      unfold nested_length
      rw [hlong]
      simpa using hlen
    refine ⟨?_, hl, ?_⟩
    · unfold nested_is_short
      rw [hlong]
      rfl
    · unfold nested_content
      rw [hl]
      exact List.take_length c

/-- Witness for C6: the stream `[2, 0, 9, 9] ++ [0, 0]` of a 2-byte-content
short element followed by an empty short element, and the single short
element `[3, 0, 5, 6, 7]`. -/
theorem nested_ie_iterator_exact_witness :
    nestedCollect [2, 0, 9, 9, 0, 0] 0 = [[2, 0, 9, 9], [0, 0]] ∧
    nested_is_short [3, 0, 5, 6, 7] = true ∧
    nested_length [3, 0, 5, 6, 7] = 3 ∧
    nested_content [3, 0, 5, 6, 7] = [5, 6, 7] :=
  ⟨(nested_ie_iterator_exact.1 [[2, 0, 9, 9], [0, 0]] (by decide)
      (by decide)).1,
   (nested_ie_iterator_exact.2 3 0 [5, 6, 7] (by decide) (by decide) (by decide)).1,
   (nested_ie_iterator_exact.2 3 0 [5, 6, 7] (by decide) (by decide) (by decide)).2.1,
   (nested_ie_iterator_exact.2 3 0 [5, 6, 7] (by decide) (by decide) (by decide)).2.2⟩

end Dot15d4
